import Mathlib

/-!
# Verification of the RA08 access-controller protocol engine

Shallow embedding of the frame codec and command dispatch of
`src/app.py` (`AccessControllerServer`).  Bytes are modelled as `Nat`
(a byte is a `Nat` below 256), byte strings as `List Nat`, and the
fallible `parse_frame` as an `Except`/`Option` returning function.
-/

namespace RA08

/-- Protocol constant `self.STX = 0x02` (src/app.py line 25). -/
def STX : Nat := 0x02

/-- Protocol constant `self.ETX = 0x03` (src/app.py line 26). -/
def ETX : Nat := 0x03

/-- Protocol constant `self.RAND = 0xA0` (src/app.py line 27). -/
def RAND : Nat := 0xA0

/-- Embedding of `calculate_checksum` (src/app.py lines 29-37): XOR fold of the
bytes; an empty input yields `0`, otherwise the first byte is folded
with the rest left to right. -/
def calculate_checksum (data : List Nat) : Nat :=
  match data with
  | [] => 0
  | b :: rest => rest.foldl (fun checksum byte => checksum ^^^ byte) b

/-- The checksum-covered part of an encoded frame, `frame_data[1:]` in
`build_command_frame` (src/app.py line 72): RAND, command, address
`0xFF`, door, little-endian 16-bit payload length, payload. -/
def checksum_data (command : Nat) (data : List Nat) (door : Nat) : List Nat :=
  RAND :: command :: 0xFF :: door :: data.length % 256 :: ((data.length >>> 8) % 256) :: data

/-- Embedding of `build_command_frame` (src/app.py lines 39-79): STX, then the
checksum-covered region, then its checksum, then ETX. -/
def build_command_frame (command : Nat) (data : List Nat) (door : Nat) : List Nat :=
  let cs := calculate_checksum (checksum_data command data door)
  STX :: (checksum_data command data door ++ [cs, ETX])

/-- The dictionary returned by `parse_frame` on success
(src/app.py lines 132-140). -/
structure Frame where
  rand : Nat
  command : Nat
  address : Nat
  door : Nat
  length : Nat
  data : List Nat
  cs : Nat
deriving Repr, DecidableEq

/-- The distinct rejection branches of `parse_frame`; each corresponds
to one `logger.warning` + `return None` site (src/app.py lines 92-129). -/
inductive ParseErr where
  | tooShort
  | badMarker
  | badLength
  | badChecksum
deriving Repr, DecidableEq

/-- The declared payload length `length_l + (length_h << 8)` read from
bytes 5 and 6 of a raw frame (src/app.py lines 105-107). -/
def declared_length (data : List Nat) : Nat :=
  data.getD 5 0 + (data.getD 6 0 <<< 8)

/-- Embedding of `parse_frame` (src/app.py lines 81-140), with the rejection cause
kept explicit (the Python logs a distinct warning per branch and
returns `None`).  `data[-1]` is the byte at index `length - 1`. -/
def parse_frameE (data : List Nat) : Except ParseErr Frame :=
  if data.length < 10 then .error .tooShort
  else if data.getD 0 0 ≠ STX ∨ data.getD (data.length - 1) 0 ≠ ETX then .error .badMarker
  else
    let rand := data.getD 1 0
    let command := data.getD 2 0
    let address := data.getD 3 0
    let door := data.getD 4 0
    let data_length := declared_length data
    if data.length ≠ 10 + data_length then .error .badLength
    else
      let frame_data := (data.drop 7).take data_length
      let received_cs := data.getD (7 + data_length) 0
      let expected_cs := calculate_checksum ((data.drop 1).take (6 + data_length))
      if received_cs ≠ expected_cs then .error .badChecksum
      else .ok { rand := rand, command := command, address := address, door := door,
                 length := data_length, data := frame_data, cs := received_cs }

/-- The `parse_frame` result as seen by callers: parsed dictionary or `None`. -/
def parse_frame (data : List Nat) : Option Frame :=
  (parse_frameE data).toOption

/-- Version of `parse_frame` re-expressed with every index access made explicit:
each byte the Python code reads is fetched through `getElem?`, so an
out-of-range read surfaces as an overall `none` (the analogue of a
Python `IndexError`).  Python slices (`data[7:data_end]`,
`data[1:data_end]`) cannot raise and keep their total form. -/
def parse_frame_checked (data : List Nat) : Option (Except ParseErr Frame) :=
  if data.length < 10 then some (.error .tooShort)
  else
    (data[0]?).bind fun first =>
    (data[data.length - 1]?).bind fun last =>
    if first ≠ STX ∨ last ≠ ETX then some (.error .badMarker)
    else
      (data[1]?).bind fun rand =>
      (data[2]?).bind fun command =>
      (data[3]?).bind fun address =>
      (data[4]?).bind fun door =>
      (data[5]?).bind fun length_l =>
      (data[6]?).bind fun length_h =>
      let data_length := length_l + (length_h <<< 8)
      if data.length ≠ 10 + data_length then some (.error .badLength)
      else
        (data[7 + data_length]?).bind fun received_cs =>
        let expected_cs := calculate_checksum ((data.drop 1).take (6 + data_length))
        if received_cs ≠ expected_cs then some (.error .badChecksum)
        else some (.ok { rand := rand, command := command, address := address,
                         door := door, length := data_length,
                         data := (data.drop 7).take data_length, cs := received_cs })

/-- Embedding of `handle_heartbeat` (src/app.py lines 142-155): the reply frame it
sends, built from the fixed two-byte customer code regardless of the
inbound frame. -/
def handle_heartbeat (_frame : Frame) : List Nat :=
  build_command_frame 0x56 [0x00, 0x00] 0

/-- The record logged by `handle_swipe_record`
(src/app.py lines 162-180). -/
structure SwipeRecord where
  card_no : Nat
  year : Nat
  month : Nat
  day : Nat
  hour : Nat
  minute : Nat
  second : Nat
  record_type : Nat
  door : Nat
  more_records : Nat
  serial_no : Nat
  data_type : Nat
  card_status : Nat
deriving Repr, DecidableEq

/-- Embedding of `handle_swipe_record` (src/app.py lines 157-200): with at least 15
payload bytes it parses the record and sends the serial-number
acknowledgement; a shorter payload is logged and dropped (`none`). -/
def handle_swipe_record (frame : Frame) : Option (SwipeRecord × List Nat) :=
  let d := frame.data
  if 15 ≤ d.length then
    let card_no := d.getD 0 0 + d.getD 1 0 * 256 + d.getD 2 0 * 65536 + d.getD 3 0 * 16777216
    let second := d.getD 4 0
    let minute := d.getD 5 0
    let hour := d.getD 6 0
    let day := d.getD 7 0
    let month := d.getD 8 0
    let year := 2000 + d.getD 9 0
    let record_type := d.getD 10 0
    let door := d.getD 11 0
    let more_records := d.getD 12 0
    let serial_no := d.getD 13 0
    let data_type := d.getD 14 0
    let card_status := if 15 < d.length then d.getD 15 0 else 0
    some ({ card_no := card_no, year := year, month := month, day := day, hour := hour,
            minute := minute, second := second, record_type := record_type, door := door,
            more_records := more_records, serial_no := serial_no, data_type := data_type,
            card_status := card_status },
          build_command_frame 0x53 [serial_no] 0)
  else none

/-- The record logged by `handle_alarm_record`
(src/app.py lines 206-220). -/
structure AlarmRecord where
  year : Nat
  month : Nat
  day : Nat
  hour : Nat
  minute : Nat
  second : Nat
  record_type : Nat
  door : Nat
  more_records : Nat
  serial_no : Nat
deriving Repr, DecidableEq

/-- Embedding of `handle_alarm_record` (src/app.py lines 202-240): with at least 10
payload bytes it parses the record and acknowledges with the serial
number; a shorter payload is dropped. -/
def handle_alarm_record (frame : Frame) : Option (AlarmRecord × List Nat) :=
  let d := frame.data
  if 10 ≤ d.length then
    some ({ year := 2000 + d.getD 5 0, month := d.getD 4 0, day := d.getD 3 0,
            hour := d.getD 2 0, minute := d.getD 1 0, second := d.getD 0 0,
            record_type := d.getD 6 0, door := d.getD 7 0,
            more_records := d.getD 8 0, serial_no := d.getD 9 0 },
          build_command_frame 0x54 [d.getD 9 0] 0)
  else none

/-- Outcome of one dispatch step of the session loop. -/
inductive DispatchResult where
  | heartbeat (reply : List Nat)
  | swipe (result : Option (SwipeRecord × List Nat))
  | alarm (result : Option (AlarmRecord × List Nat))
  | unhandled (command : Nat)
deriving Repr, DecidableEq

/-- The command dispatch of `handle_controller_connection`
(src/app.py lines 283-290): `0x56`, `0x53` and `0x54` go to their
handlers; every other command is logged as unhandled, with no reply
and no event. -/
def dispatch_frame (frame : Frame) : DispatchResult :=
  if frame.command = 0x56 then .heartbeat (handle_heartbeat frame)
  else if frame.command = 0x53 then .swipe (handle_swipe_record frame)
  else if frame.command = 0x54 then .alarm (handle_alarm_record frame)
  else .unhandled frame.command

/-- Flip bit `k` of the byte at index `i` (transmission-corruption
model used by the checksum-sensitivity property). -/
def flip_bit (data : List Nat) (i k : Nat) : List Nat :=
  data.set i (data.getD i 0 ^^^ (1 <<< k))

/-! ## Helper lemmas -/

theorem checksum_eq_foldl (l : List Nat) :
    calculate_checksum l = l.foldl (fun a b => a ^^^ b) 0 := by
  cases l with
  | nil => rfl
  | cons b rest => simp [calculate_checksum]

theorem foldl_xor_shift (l : List Nat) (c : Nat) :
    l.foldl (fun a b => a ^^^ b) c = c ^^^ l.foldl (fun a b => a ^^^ b) 0 := by
  induction l generalizing c with
  | nil => simp
  | cons b rest ih =>
    simp only [List.foldl_cons]
    rw [ih (c ^^^ b), ih (0 ^^^ b)]
    simp [Nat.xor_assoc]

theorem foldl_xor_set (l : List Nat) (j m : Nat) (hj : j < l.length) :
    (l.set j (l.getD j 0 ^^^ m)).foldl (fun a b => a ^^^ b) 0 =
      l.foldl (fun a b => a ^^^ b) 0 ^^^ m := by
  induction l generalizing j with
  | nil => simp at hj
  | cons b rest ih =>
    cases j with
    | zero =>
      simp only [List.getD_cons_zero, List.set_cons_zero, List.foldl_cons]
      rw [foldl_xor_shift rest (0 ^^^ (b ^^^ m)), foldl_xor_shift rest (0 ^^^ b)]
      simp only [Nat.zero_xor]
      rw [Nat.xor_assoc, Nat.xor_assoc, Nat.xor_comm m]
    | succ j =>
      simp only [List.getD_cons_succ, List.set_cons_succ, List.foldl_cons]
      rw [foldl_xor_shift (rest.set j (rest.getD j 0 ^^^ m)) (0 ^^^ b),
        foldl_xor_shift rest (0 ^^^ b), ih j (by simpa using hj)]
      simp [Nat.xor_assoc]

theorem checksum_set (l : List Nat) (j m : Nat) (hj : j < l.length) :
    calculate_checksum (l.set j (l.getD j 0 ^^^ m)) = calculate_checksum l ^^^ m := by
  rw [checksum_eq_foldl, checksum_eq_foldl, foldl_xor_set l j m hj]

theorem xor_ne_self (x m : Nat) (hm : m ≠ 0) : x ^^^ m ≠ x := by
  intro h
  apply hm
  have hx : x ^^^ (x ^^^ m) = 0 := by rw [h, Nat.xor_self]
  rwa [← Nat.xor_assoc, Nat.xor_self, Nat.zero_xor] at hx

theorem getD_set_ne (l : List Nat) (i j v d : Nat) (h : i ≠ j) :
    (l.set i v).getD j d = l.getD j d := by
  simp only [List.getD, List.get?_eq_getElem?, List.getElem?_set_ne h]

theorem getD_drop_take (l : List Nat) (s t j d : Nat) (hj : j < t) :
    ((l.drop s).take t).getD j d = l.getD (s + j) d := by
  simp only [List.getD, List.get?_eq_getElem?]
  rw [List.getElem?_take_of_lt hj, List.getElem?_drop]

theorem parse_frame_eq_some (d : List Nat) (f : Frame) :
    parse_frame d = some f ↔ parse_frameE d = .ok f := by
  unfold parse_frame
  cases parse_frameE d <;> simp [Except.toOption]

theorem parse_ok_inv (d : List Nat) (f : Frame) (h : parse_frameE d = .ok f) :
    10 ≤ d.length ∧ d.getD 0 0 = STX ∧ d.getD (d.length - 1) 0 = ETX ∧
    d.length = 10 + declared_length d ∧
    d.getD (7 + declared_length d) 0 =
      calculate_checksum ((d.drop 1).take (6 + declared_length d)) ∧
    f = { rand := d.getD 1 0, command := d.getD 2 0, address := d.getD 3 0,
          door := d.getD 4 0, length := declared_length d,
          data := (d.drop 7).take (declared_length d),
          cs := d.getD (7 + declared_length d) 0 } := by
  simp only [parse_frameE] at h
  split at h
  · simp at h
  next h1 =>
    split at h
    · simp at h
    next h2 =>
      split at h
      · simp at h
      next h3 =>
        split at h
        · simp at h
        next h4 =>
          rw [not_or] at h2
          simp only [Except.ok.injEq] at h
          refine ⟨by omega, not_ne_iff.mp h2.1, not_ne_iff.mp h2.2,
            not_ne_iff.mp h3, not_ne_iff.mp h4, ?_⟩
          rw [← h]

theorem checksum_data_length (command door : Nat) (data : List Nat) :
    (checksum_data command data door).length = 6 + data.length := by
  simp only [checksum_data, List.length_cons]
  omega

theorem build_eq_cons (command door : Nat) (data : List Nat) :
    build_command_frame command data door =
      STX :: (checksum_data command data door ++
        [calculate_checksum (checksum_data command data door), ETX]) := rfl

theorem build_length (command door : Nat) (data : List Nat) :
    (build_command_frame command data door).length = 9 + data.length := by
  rw [build_eq_cons]
  simp only [List.length_cons, List.length_append, checksum_data_length, List.length_nil]
  omega

theorem build_getD_etx (command door : Nat) (data : List Nat) :
    (build_command_frame command data door).getD (8 + data.length) 0 = ETX := by
  rw [build_eq_cons]
  have h8 : 8 + data.length = (7 + data.length) + 1 := by omega
  rw [h8, List.getD_cons_succ,
    List.getD_append_right _ _ _ _ (by rw [checksum_data_length]; omega),
    checksum_data_length]
  have h1 : 7 + data.length - (6 + data.length) = 1 := by omega
  rw [h1]
  rfl

theorem build_getD_cs (command door : Nat) (data : List Nat) :
    (build_command_frame command data door).getD (7 + data.length) 0 =
      calculate_checksum (checksum_data command data door) := by
  rw [build_eq_cons]
  have h7 : 7 + data.length = (6 + data.length) + 1 := by omega
  rw [h7, List.getD_cons_succ,
    List.getD_append_right _ _ _ _ (by rw [checksum_data_length]),
    checksum_data_length]
  have h0 : 6 + data.length - (6 + data.length) = 0 := by omega
  rw [h0]
  rfl

theorem build_checksum_region (command door : Nat) (data : List Nat) :
    ((build_command_frame command data door).drop 1).take (6 + data.length) =
      checksum_data command data door := by
  rw [build_eq_cons, List.drop_succ_cons, List.drop_zero,
    List.take_left' (checksum_data_length command door data)]

theorem declared_length_build (command door : Nat) (data : List Nat) :
    declared_length (build_command_frame command data door) =
      data.length % 256 + data.length / 256 % 256 * 256 := by
  have h5 : (build_command_frame command data door).getD 5 0 = data.length % 256 := rfl
  have h6 : (build_command_frame command data door).getD 6 0 =
      (data.length >>> 8) % 256 := rfl
  rw [declared_length, h5, h6, Nat.shiftRight_eq_div_pow, Nat.shiftLeft_eq]

/-! ## Claim theorems -/

/-- C1: the round-trip claim fails on the code: `build_command_frame`
emits frames of `9 + payload` bytes (7-byte header) while `parse_frame`
insists on `10 + payload` bytes (its comment assumes an 8-byte header),
so decoding an encoded frame returns `None` for every command, door and
payload whatsoever. -/
theorem roundtrip_always_fails (command door : Nat) (data : List Nat) :
    parse_frame (build_command_frame command data door) = none := by
  have hlen := build_length command door data
  rcases Nat.eq_zero_or_pos data.length with h0 | h1
  · unfold parse_frame
    simp only [parse_frameE]
    rw [if_pos (by omega)]
    rfl
  · have hmark : ¬ ((build_command_frame command data door).getD 0 0 ≠ STX ∨
        (build_command_frame command data door).getD
          ((build_command_frame command data door).length - 1) 0 ≠ ETX) := by
      rw [not_or, not_ne_iff, not_ne_iff]
      refine ⟨rfl, ?_⟩
      rw [hlen]
      have h8 : 9 + data.length - 1 = 8 + data.length := by omega
      rw [h8, build_getD_etx]
    have hmis : (build_command_frame command data door).length ≠
        10 + declared_length (build_command_frame command data door) := by
      rw [hlen, declared_length_build]
      omega
    unfold parse_frame
    simp only [parse_frameE]
    rw [if_neg (by omega), if_neg hmark, if_pos hmis]
    rfl

/-- C3: `calculate_checksum` is the left-to-right XOR fold of its input
starting from zero (in particular `0` on the empty list), and on
byte-valued input the result is again a single byte. -/
theorem calculate_checksum_spec (l : List Nat) :
    calculate_checksum l = l.foldl (fun checksum byte => checksum ^^^ byte) 0 ∧
    calculate_checksum [] = 0 ∧
    ((∀ b ∈ l, b < 256) → calculate_checksum l < 256) := by
  refine ⟨checksum_eq_foldl l, rfl, fun hb => ?_⟩
  rw [checksum_eq_foldl]
  have key : ∀ (t : List Nat) (c : Nat), c < 256 → (∀ b ∈ t, b < 256) →
      t.foldl (fun checksum byte => checksum ^^^ byte) c < 256 := by
    intro t
    induction t with
    | nil => intro c hc _; simpa using hc
    | cons b rest ih =>
      intro c hc hbs
      simp only [List.foldl_cons]
      refine ih (c ^^^ b) ?_ (fun x hx => hbs x (by simp [hx]))
      have hcb : c ^^^ b < 2 ^ 8 :=
        Nat.xor_lt_two_pow (by simpa using hc) (by simpa using hbs b (by simp))
      simpa using hcb
  exact key l 0 (by norm_num) hb

/-- Witness for C3: a concrete byte list satisfies the hypothesis and
the checksum stays below 256. -/
theorem calculate_checksum_spec_witness :
    (∀ b ∈ [0xA0, 0x56, 0xFF], b < 256) ∧ calculate_checksum [0xA0, 0x56, 0xFF] < 256 :=
  ⟨by decide, (calculate_checksum_spec [0xA0, 0x56, 0xFF]).2.2 (by decide)⟩

/-- C5: a decoded frame carrying command `0x56` is dispatched to the
heartbeat handler, whose reply is the fixed frame built from command
`0x56` and the two-byte payload `(0x00, 0x00)` no matter what the
inbound payload was; the reply's command byte is `0x56` and its payload
bytes are exactly `[0x00, 0x00]`. -/
theorem heartbeat_reply_fixed (f : Frame) (h : f.command = 0x56) :
    dispatch_frame f = .heartbeat (build_command_frame 0x56 [0x00, 0x00] 0) ∧
    (handle_heartbeat f).getD 2 0 = 0x56 ∧
    ((handle_heartbeat f).drop 7).take 2 = [0x00, 0x00] := by
  refine ⟨?_, rfl, rfl⟩
  simp [dispatch_frame, h, handle_heartbeat]

/-- Witness for C5 at a concrete heartbeat frame. -/
theorem heartbeat_reply_fixed_witness :
    dispatch_frame { rand := 0xA0, command := 0x56, address := 0xFF, door := 0,
                     length := 0, data := [], cs := 0x09 } =
      .heartbeat (build_command_frame 0x56 [0x00, 0x00] 0) ∧
    (handle_heartbeat { rand := 0xA0, command := 0x56, address := 0xFF, door := 0,
                        length := 0, data := [], cs := 0x09 }).getD 2 0 = 0x56 ∧
    ((handle_heartbeat { rand := 0xA0, command := 0x56, address := 0xFF, door := 0,
                         length := 0, data := [], cs := 0x09 }).drop 7).take 2 =
      [0x00, 0x00] :=
  heartbeat_reply_fixed
    { rand := 0xA0, command := 0x56, address := 0xFF, door := 0,
      length := 0, data := [], cs := 0x09 } rfl

/-- C6 counterexample: the handler requires at least 15 payload bytes
(the protocol comment adds a data-type byte after the serial number),
so the 14-byte payload the claim says is sufficient is dropped with no
reply. -/
theorem swipe_record_14_bytes_dropped :
    handle_swipe_record
      { rand := 0xA0, command := 0x53, address := 0xFF, door := 0, length := 14,
        data := [0, 0, 0, 0, 0, 0, 0, 0, 0, 0, 0, 0, 0, 0], cs := 0 } = none := by
  decide

/-- C6 amended: a `0x53` frame with at least 15 payload bytes is parsed
field by field as claimed (plus the extra data-type byte at offset 14)
and acknowledged with exactly the serial-number byte at payload offset
13; any shorter payload is dropped without a reply. -/
theorem handle_swipe_record_spec (f : Frame) :
    (15 ≤ f.data.length →
      handle_swipe_record f =
        some ({ card_no := f.data.getD 0 0 + f.data.getD 1 0 * 256 +
                  f.data.getD 2 0 * 65536 + f.data.getD 3 0 * 16777216,
                year := 2000 + f.data.getD 9 0, month := f.data.getD 8 0,
                day := f.data.getD 7 0, hour := f.data.getD 6 0,
                minute := f.data.getD 5 0, second := f.data.getD 4 0,
                record_type := f.data.getD 10 0, door := f.data.getD 11 0,
                more_records := f.data.getD 12 0, serial_no := f.data.getD 13 0,
                data_type := f.data.getD 14 0,
                card_status := if 15 < f.data.length then f.data.getD 15 0 else 0 },
              build_command_frame 0x53 [f.data.getD 13 0] 0) ∧
      ((build_command_frame 0x53 [f.data.getD 13 0] 0).drop 7).take 1 =
        [f.data.getD 13 0]) ∧
    (f.data.length < 15 → handle_swipe_record f = none) := by
  constructor
  · intro h
    refine ⟨?_, rfl⟩
    unfold handle_swipe_record
    rw [if_pos h]
  · intro h
    unfold handle_swipe_record
    rw [if_neg (by omega)]

/-- Witness for C6: a concrete 15-byte swipe payload is parsed and
acknowledged with its serial number `7`. -/
theorem handle_swipe_record_spec_witness :
    handle_swipe_record
      { rand := 0xA0, command := 0x53, address := 0xFF, door := 0, length := 15,
        data := [1, 0, 0, 0, 30, 15, 10, 12, 11, 25, 1, 2, 0, 7, 0], cs := 0 } =
      some ({ card_no := 1, year := 2025, month := 11, day := 12, hour := 10,
              minute := 15, second := 30, record_type := 1, door := 2,
              more_records := 0, serial_no := 7, data_type := 0, card_status := 0 },
            build_command_frame 0x53 [7] 0) := by
  have h := (handle_swipe_record_spec
    { rand := 0xA0, command := 0x53, address := 0xFF, door := 0, length := 15,
      data := [1, 0, 0, 0, 30, 15, 10, 12, 11, 25, 1, 2, 0, 7, 0], cs := 0 }).1
    (by decide)
  exact h.1

/-- C7 counterexample: the session loop of `handle_controller_connection`
dispatches only `0x56`, `0x53` and `0x54`; the claimed card-state frame
with payload `[0x05, 0x00, 0x01, 0x07, 0x00]` lands in the
unhandled-command branch, so no `[0x07]` reply is produced. -/
theorem card_state_frame_unhandled :
    dispatch_frame
      { rand := 0xA0, command := 0x52, address := 0xFF, door := 0, length := 5,
        data := [0x05, 0x00, 0x01, 0x07, 0x00], cs := 0 } =
      .unhandled 0x52 := by
  decide

/-- C7 amended: every decoded frame with command `0x52` is treated as an
unhandled command by the dispatch: it is only logged, with no reply and
no parsed record. -/
theorem card_state_frames_unhandled (f : Frame) (h : f.command = 0x52) :
    dispatch_frame f = .unhandled 0x52 := by
  simp [dispatch_frame, h]

/-- Witness for C7 at a concrete `0x52` frame. -/
theorem card_state_frames_unhandled_witness :
    dispatch_frame { rand := 0, command := 0x52, address := 0xFF, door := 0,
                     length := 0, data := [], cs := 0 } = .unhandled 0x52 :=
  card_state_frames_unhandled
    { rand := 0, command := 0x52, address := 0xFF, door := 0,
      length := 0, data := [], cs := 0 } rfl

/-- C8 counterexample: the open-door encoding does not produce the
claimed bytes; the claimed checksum `0xCE` is not the XOR of the
covered bytes. -/
theorem open_door_frame_not_as_claimed :
    build_command_frame 0x2C [0x02] 2 ≠
      [0x02, 0xA0, 0x2C, 0xFF, 0x02, 0x01, 0x00, 0x02, 0xCE, 0x03] ∧
    (0xA0 ^^^ 0x2C ^^^ 0xFF ^^^ 0x02 ^^^ 0x01 ^^^ 0x00 ^^^ 0x02 : Nat) ≠ 0xCE := by
  decide

/-- C8 amended: encoding command `0x2C`, payload `[0x02]`, door `2`
(Rand `0xA0`) yields `02 A0 2C FF 02 01 00 02 72 03`, with checksum
byte `0x72 = 0xA0^0x2C^0xFF^0x02^0x01^0x00^0x02`. -/
theorem open_door_frame_encoding :
    build_command_frame 0x2C [0x02] 2 =
      [0x02, 0xA0, 0x2C, 0xFF, 0x02, 0x01, 0x00, 0x02, 0x72, 0x03] ∧
    (0xA0 ^^^ 0x2C ^^^ 0xFF ^^^ 0x02 ^^^ 0x01 ^^^ 0x00 ^^^ 0x02 : Nat) = 0x72 := by
  decide

/-- C10: every encoded frame has length `9 + payload`, starts with STX,
ends with ETX, carries the 16-bit little-endian payload length at
indices 5 and 6, and carries at its second-to-last index the XOR fold
of the bytes from index 1 through the end of the payload. -/
theorem build_command_frame_shape (command door : Nat) (data : List Nat)
    (hcmd : command < 256) (hdoor : door < 256) (hdata : ∀ b ∈ data, b < 256) :
    (build_command_frame command data door).length = 9 + data.length ∧
    (build_command_frame command data door).getD 0 0 = STX ∧
    (build_command_frame command data door).getD (8 + data.length) 0 = ETX ∧
    (build_command_frame command data door).getD 5 0 = data.length % 256 ∧
    (build_command_frame command data door).getD 6 0 = data.length / 256 % 256 ∧
    (data.length < 65536 →
      (build_command_frame command data door).getD 5 0 +
        256 * (build_command_frame command data door).getD 6 0 = data.length) ∧
    (build_command_frame command data door).getD (7 + data.length) 0 =
      (((build_command_frame command data door).drop 1).take
        (6 + data.length)).foldl (fun checksum byte => checksum ^^^ byte) 0 := by
  have h6 : (build_command_frame command data door).getD 6 0 =
      (data.length >>> 8) % 256 := rfl
  have h6d : (build_command_frame command data door).getD 6 0 =
      data.length / 256 % 256 := by
    rw [h6, Nat.shiftRight_eq_div_pow]
  refine ⟨build_length command door data, rfl, build_getD_etx command door data,
    rfl, h6d, ?_, ?_⟩
  · intro hfit
    rw [h6d]
    have h5 : (build_command_frame command data door).getD 5 0 =
        data.length % 256 := rfl
    rw [h5]
    omega
  · rw [build_checksum_region, build_getD_cs, checksum_eq_foldl]

/-- C2: `parse_frame` fails exactly on the five listed malformations
(short input, bad STX, bad ETX, declared length plus 10 differing from
the byte count, checksum mismatch over Rand..Payload), and otherwise
returns the structured frame whose command, door and payload are read
from the input. -/
theorem parse_frame_rejects_iff (d : List Nat) :
    (parse_frame d = none ↔
      d.length < 10 ∨ d.getD 0 0 ≠ STX ∨ d.getD (d.length - 1) 0 ≠ ETX ∨
      d.length ≠ 10 + declared_length d ∨
      d.getD (7 + declared_length d) 0 ≠
        calculate_checksum ((d.drop 1).take (6 + declared_length d))) ∧
    (¬ (d.length < 10 ∨ d.getD 0 0 ≠ STX ∨ d.getD (d.length - 1) 0 ≠ ETX ∨
        d.length ≠ 10 + declared_length d ∨
        d.getD (7 + declared_length d) 0 ≠
          calculate_checksum ((d.drop 1).take (6 + declared_length d))) →
      parse_frame d =
        some { rand := d.getD 1 0, command := d.getD 2 0, address := d.getD 3 0,
               door := d.getD 4 0, length := declared_length d,
               data := (d.drop 7).take (declared_length d),
               cs := d.getD (7 + declared_length d) 0 }) := by
  unfold parse_frame
  simp only [parse_frameE]
  split_ifs with h1 h2 h3 h4
  · exact ⟨iff_of_true rfl (Or.inl h1), fun hc => absurd (Or.inl h1) hc⟩
  · exact ⟨iff_of_true rfl (by tauto), fun hc => absurd (by tauto) hc⟩
  · exact ⟨iff_of_true rfl (by tauto), fun hc => absurd (by tauto) hc⟩
  · exact ⟨iff_of_true rfl (by tauto), fun hc => absurd (by tauto) hc⟩
  · exact ⟨iff_of_false (by simp [Except.toOption]) (by tauto), fun hc => rfl⟩

/-- Witness for C2: on a concrete well-formed 10-byte frame none of the
rejection conditions holds and `parse_frame` returns the structured
frame. -/
theorem parse_frame_rejects_iff_witness :
    parse_frame [0x02, 0xA0, 0x56, 0xFF, 0x00, 0x00, 0x00, 0x09, 0x00, 0x03] =
      some { rand := [0x02, 0xA0, 0x56, 0xFF, 0x00, 0x00, 0x00, 0x09, 0x00, 0x03].getD 1 0,
             command := [0x02, 0xA0, 0x56, 0xFF, 0x00, 0x00, 0x00, 0x09, 0x00, 0x03].getD 2 0,
             address := [0x02, 0xA0, 0x56, 0xFF, 0x00, 0x00, 0x00, 0x09, 0x00, 0x03].getD 3 0,
             door := [0x02, 0xA0, 0x56, 0xFF, 0x00, 0x00, 0x00, 0x09, 0x00, 0x03].getD 4 0,
             length := declared_length [0x02, 0xA0, 0x56, 0xFF, 0x00, 0x00, 0x00, 0x09, 0x00, 0x03],
             data := ([0x02, 0xA0, 0x56, 0xFF, 0x00, 0x00, 0x00, 0x09, 0x00, 0x03].drop 7).take
               (declared_length [0x02, 0xA0, 0x56, 0xFF, 0x00, 0x00, 0x00, 0x09, 0x00, 0x03]),
             cs := [0x02, 0xA0, 0x56, 0xFF, 0x00, 0x00, 0x00, 0x09, 0x00, 0x03].getD
               (7 + declared_length [0x02, 0xA0, 0x56, 0xFF, 0x00, 0x00, 0x00, 0x09, 0x00, 0x03]) 0 } :=
  (parse_frame_rejects_iff
    [0x02, 0xA0, 0x56, 0xFF, 0x00, 0x00, 0x00, 0x09, 0x00, 0x03]).2 (by decide)

/-- C9: `parse_frame` is total and memory safe: on every input the
fully bounds-checked parser (each byte access through `getElem?`)
returns `some` of what the total parser computes, so every index the
code reads after the length check is within bounds. -/
theorem parse_frame_checked_total (d : List Nat) :
    parse_frame_checked d = some (parse_frameE d) := by
  have hget : ∀ i, i < d.length → d[i]? = some (d.getD i 0) := by
    intro i hi
    rw [List.getElem?_eq_getElem hi, List.getD_eq_getElem d 0 hi]
  unfold parse_frame_checked
  simp only [parse_frameE]
  by_cases h1 : d.length < 10
  · rw [if_pos h1, if_pos h1]
  · rw [if_neg h1, if_neg h1,
      hget 0 (by omega), hget (d.length - 1) (by omega), hget 1 (by omega),
      hget 2 (by omega), hget 3 (by omega), hget 4 (by omega), hget 5 (by omega),
      hget 6 (by omega)]
    simp only [Option.some_bind, declared_length]
    by_cases h2 : d.getD 0 0 ≠ STX ∨ d.getD (d.length - 1) 0 ≠ ETX
    · rw [if_pos h2, if_pos h2]
    · rw [if_neg h2, if_neg h2]
      by_cases h3 : d.length ≠ 10 + (d.getD 5 0 + (d.getD 6 0 <<< 8))
      · rw [if_pos h3, if_pos h3]
      · rw [if_neg h3, if_neg h3,
          hget (7 + (d.getD 5 0 + (d.getD 6 0 <<< 8))) (by omega)]
        simp only [Option.some_bind]
        by_cases h4 : d.getD (7 + (d.getD 5 0 + (d.getD 6 0 <<< 8))) 0 ≠
            calculate_checksum ((d.drop 1).take (6 + (d.getD 5 0 + (d.getD 6 0 <<< 8))))
        · rw [if_pos h4, if_pos h4]
        · rw [if_neg h4, if_neg h4]

/-- C4 counterexample: on an accepted frame, flipping bit 0 of the byte
at index 5 (the low length byte, inside the claimed Rand..Payload
range `1 .. 6+payload`) makes `parse_frame` fail at the length check,
not at the checksum comparison. -/
theorem flip_length_byte_fails_length_check :
    parse_frame [0x02, 0xA0, 0x56, 0xFF, 0x00, 0x00, 0x00, 0x09, 0x00, 0x03] =
      some { rand := 0xA0, command := 0x56, address := 0xFF, door := 0,
             length := 0, data := [], cs := 0x09 } ∧
    flip_bit [0x02, 0xA0, 0x56, 0xFF, 0x00, 0x00, 0x00, 0x09, 0x00, 0x03] 5 0 =
      [0x02, 0xA0, 0x56, 0xFF, 0x00, 0x01, 0x00, 0x09, 0x00, 0x03] ∧
    parse_frameE [0x02, 0xA0, 0x56, 0xFF, 0x00, 0x01, 0x00, 0x09, 0x00, 0x03] =
      .error .badLength ∧
    ParseErr.badLength ≠ ParseErr.badChecksum :=
  ⟨by decide, by decide, rfl, by decide⟩

/-- C4 amended: for every frame `parse_frame` accepts, flipping any
single bit of any byte in the Rand..Payload range other than the two
length bytes (indices 5 and 6) yields an input on which `parse_frame`
fails precisely at the checksum comparison; a flip inside the length
bytes fails the earlier length check instead. -/
theorem checksum_sensitivity (d : List Nat) (f : Frame) (i k : Nat)
    (hp : parse_frame d = some f) (hk : k < 8) (hi1 : 1 ≤ i)
    (hi2 : i ≤ 6 + f.data.length) (h5 : i ≠ 5) (h6 : i ≠ 6) :
    parse_frameE (flip_bit d i k) = .error .badChecksum := by
  rw [parse_frame_eq_some] at hp
  obtain ⟨hlen10, hstx, hetx, hlen, hcs, hf⟩ := parse_ok_inv d f hp
  have hfdata : f.data.length = declared_length d := by
    rw [hf]
    simp only [List.length_take, List.length_drop]
    omega
  rw [hfdata] at hi2
  have hm0 : (1 <<< k) ≠ 0 := by
    rw [Nat.one_shiftLeft]
    exact Nat.ne_of_gt (Nat.two_pow_pos k)
  have hlenf : (flip_bit d i k).length = d.length := by
    simp [flip_bit]
  have hgetD : ∀ j, i ≠ j → (flip_bit d i k).getD j 0 = d.getD j 0 := by
    intro j hj
    exact getD_set_ne d i j _ 0 hj
  have hND : declared_length (flip_bit d i k) = declared_length d := by
    unfold declared_length
    rw [hgetD 5 h5, hgetD 6 h6]
  have hc1 : ¬ (flip_bit d i k).length < 10 := by
    rw [hlenf]; omega
  have hc2 : ¬ ((flip_bit d i k).getD 0 0 ≠ STX ∨
      (flip_bit d i k).getD ((flip_bit d i k).length - 1) 0 ≠ ETX) := by
    rw [not_or, not_ne_iff, not_ne_iff, hlenf, hgetD 0 (by omega),
      hgetD (d.length - 1) (by omega)]
    exact ⟨hstx, hetx⟩
  have hc3 : ¬ (flip_bit d i k).length ≠ 10 + declared_length (flip_bit d i k) := by
    rw [not_ne_iff, hlenf, hND]
    exact hlen
  have hregion : ((flip_bit d i k).drop 1).take (6 + declared_length d) =
      ((d.drop 1).take (6 + declared_length d)).set (i - 1)
        (((d.drop 1).take (6 + declared_length d)).getD (i - 1) 0 ^^^ (1 <<< k)) := by
    unfold flip_bit
    rw [List.drop_set, if_neg (by omega), List.set_take,
      getD_drop_take d 1 (6 + declared_length d) (i - 1) 0 (by omega)]
    have hi' : 1 + (i - 1) = i := by omega
    rw [hi']
  have hc4 : (flip_bit d i k).getD (7 + declared_length (flip_bit d i k)) 0 ≠
      calculate_checksum (((flip_bit d i k).drop 1).take
        (6 + declared_length (flip_bit d i k))) := by
    rw [hND, hgetD (7 + declared_length d) (by omega), hregion,
      checksum_set _ _ _ (by simp only [List.length_take, List.length_drop]; omega),
      hcs]
    exact Ne.symm (xor_ne_self _ _ hm0)
  simp only [parse_frameE]
  rw [if_neg hc1, if_neg hc2, if_neg hc3, if_pos hc4]

/-- Witness for C4 amended: flipping bit 0 of the Rand byte of a
concrete accepted frame produces a checksum-mismatch failure. -/
theorem checksum_sensitivity_witness :
    parse_frameE (flip_bit [0x02, 0xA0, 0x56, 0xFF, 0x00, 0x00, 0x00, 0x09, 0x01, 0x03] 1 0) =
      .error .badChecksum :=
  checksum_sensitivity [0x02, 0xA0, 0x56, 0xFF, 0x00, 0x00, 0x00, 0x09, 0x01, 0x03]
    { rand := 0xA0, command := 0x56, address := 0xFF, door := 0,
      length := 0, data := [], cs := 0x09 } 1 0
    (by decide) (by decide) (by decide) (by decide) (by decide) (by decide)

/-- Witness for C10 at command `0x56`, door `0`, empty payload. -/
theorem build_command_frame_shape_witness :
    (0x56 : Nat) < 256 ∧ (0 : Nat) < 256 ∧
    ((build_command_frame 0x56 [] 0).length = 9 + ([] : List Nat).length ∧
     (build_command_frame 0x56 [] 0).getD 0 0 = STX ∧
     (build_command_frame 0x56 [] 0).getD (8 + ([] : List Nat).length) 0 = ETX ∧
     (build_command_frame 0x56 [] 0).getD 5 0 = ([] : List Nat).length % 256 ∧
     (build_command_frame 0x56 [] 0).getD 6 0 = ([] : List Nat).length / 256 % 256 ∧
     (([] : List Nat).length < 65536 →
       (build_command_frame 0x56 [] 0).getD 5 0 +
         256 * (build_command_frame 0x56 [] 0).getD 6 0 = ([] : List Nat).length) ∧
     (build_command_frame 0x56 [] 0).getD (7 + ([] : List Nat).length) 0 =
       (((build_command_frame 0x56 [] 0).drop 1).take
         (6 + ([] : List Nat).length)).foldl (fun checksum byte => checksum ^^^ byte) 0) :=
  ⟨by decide, by decide,
    build_command_frame_shape 0x56 0 [] (by decide) (by decide) (by decide)⟩

end RA08
